import Mathlib

/-!
Shallow embedding of the crop recommendation engine
(Backend/Recommender/app: recommender.py, soil_service.py,
weather_service.py, models.py) and verification of its specification.

Numbers (Python floats holding temperatures, humidities, pH values,
rainfall, scores) are modelled as rationals.  Python string lowering
and substring tests are modelled character-wise.  Dictionary access and
Python truthiness are made explicit with Option types: a missing key is
none, and a present-but-falsy value (0, None, empty collection) is
spelled out at each use site exactly as the source tests it.
-/

/-- Python str.lower, character by character (ASCII, as used by the app). -/
def pyLower (s : String) : String := String.mk (s.data.map Char.toLower)

/-- Occurrence of one character list inside another, scanning positions
left to right. -/
def charsContain (pat : List Char) : List Char → Bool
  | [] => pat.isEmpty
  | c :: cs => pat.isPrefixOf (c :: cs) || charsContain pat cs

/-- Python substring test (pat in s) on the character lists. -/
def strContains (s pat : String) : Bool :=
  charsContain pat.data s.data

/-- models.py Crop (pydantic model): static catalog record. -/
structure Crop where
  name : String
  temperature_range : ℚ × ℚ
  rainfall_range : ℚ × ℚ
  soil_ph_range : ℚ × ℚ
  soil_types : List String
  season : String
  tips : String
deriving DecidableEq

/-- The dictionaries appended by recommender.recommend_crops. -/
structure RecOut where
  name : String
  season : String
  tips : String
deriving DecidableEq

/-- The membership test of recommender.recommend_crops, line by line:
temperature, rainfall and pH against the closed ranges, and
soil_type.lower() against the lowered soil_types list. -/
def cropMatches (temp rain ph : ℚ) (soil_type : String) (crop : Crop) : Bool :=
  decide (crop.temperature_range.1 ≤ temp) && decide (temp ≤ crop.temperature_range.2) &&
  (decide (crop.rainfall_range.1 ≤ rain) && decide (rain ≤ crop.rainfall_range.2)) &&
  (decide (crop.soil_ph_range.1 ≤ ph) && decide (ph ≤ crop.soil_ph_range.2)) &&
  (crop.soil_types.map pyLower).contains (pyLower soil_type)

/-- recommender.recommend_crops: the accumulating loop over the catalog
(the catalog itself, loaded from crops.json at call time, is passed in). -/
def recommend_crops (crops : List Crop) (temp rain ph : ℚ) (soil_type : String) :
    List RecOut :=
  match crops with
  | [] => []
  | crop :: rest =>
    if cropMatches temp rain ph soil_type crop then
      ⟨crop.name, crop.season, crop.tips⟩ :: recommend_crops rest temp rain ph soil_type
    else
      recommend_crops rest temp rain ph soil_type

/-- recommender.estimate_rainfall_from_humidity: fixed step function. -/
def estimate_rainfall_from_humidity (humidity : ℚ) : ℚ :=
  if humidity ≥ 80 then 800
  else if humidity ≥ 60 then 600
  else if humidity ≥ 40 then 400
  else 300

/-- One entry of the soil properties dictionary built by
soil_service.get_soil_properties: the provider value (JSON null becomes
none), its unit and uncertainty.  The derived description string is a
fixed lookup and is not modelled. -/
structure PropEntry where
  value : Option ℚ
  unit : String
  uncertainty : Option ℚ
deriving DecidableEq

/-- The properties dictionary keyed by the nine agronomic property names
requested by get_agricultural_soil_analysis; none means the key is absent. -/
structure SoilProps where
  ph : Option PropEntry
  soc : Option PropEntry
  sand : Option PropEntry
  clay : Option PropEntry
  silt : Option PropEntry
  nitrogen : Option PropEntry
  phosphorus : Option PropEntry
  potassium : Option PropEntry
  cec : Option PropEntry
deriving DecidableEq

/-- A SoilProps with every key absent. -/
def SoilProps.empty : SoilProps :=
  ⟨none, none, none, none, none, none, none, none, none⟩

/-- Python truthiness of the properties dictionary (nonempty dict). -/
def SoilProps.nonempty (p : SoilProps) : Bool :=
  p.ph.isSome || p.soc.isSome || p.sand.isSome || p.clay.isSome || p.silt.isSome ||
  p.nitrogen.isSome || p.phosphorus.isSome || p.potassium.isSome || p.cec.isSome

/-- The combined test `"k" in properties and properties["k"]["value"]`
(and likewise `properties.get("k", {}).get("value")` used as a condition):
yields the value exactly when the key is present and its value is truthy
(not None and not 0). -/
def entryValueTruthy (e : Option PropEntry) : Option ℚ :=
  match e with
  | none => none
  | some en =>
    match en.value with
    | none => none
    | some v => if v = 0 then none else some v

/-- `properties.get("k", {}).get("value", 0)` as the texture block of the
interpretation evaluates it: an absent key gives the empty dictionary and
the default 0; a present entry always carries its "value" key (the fetch
stores one for every kept property), so the stored value is returned even
when it is the JSON null None — the 0 default is not used then. -/
def entryValueD (e : Option PropEntry) : Option ℚ :=
  match e with
  | none => some 0
  | some en => en.value

/-- The Python error message raised by comparing None with a number, as
the texture block does when a present sand or clay entry holds a null
value. -/
def textureTypeError : String :=
  "TypeError: unsupported comparison between NoneType and int"

/-- The interpretation dictionary initialised and filled by
soil_service.SoilService._interpret_soil_for_agriculture.  The
nutrient_status sub-dictionary is initialised empty and never written,
so it is not modelled. -/
structure Interpretation where
  soil_type : String
  fertility_rating : String
  ph_status : String
  organic_matter : String
  recommendations : List String
deriving DecidableEq

/-- soil_service.SoilService._interpret_soil_for_agriculture, statement by
statement: pH block, texture block, organic-carbon block.  The texture
comparisons raise TypeError when they meet a None value (a present sand,
or reachable clay, entry whose value is null); the raised error aborts
the function, discarding the dictionary, and propagates to the caller.
The silt value is read but never compared, so it cannot raise. -/
def interpret_soil_for_agriculture (properties : SoilProps) :
    Except String Interpretation :=
  let i0 : Interpretation := ⟨"Unknown", "Unknown", "Unknown", "Unknown", []⟩
  let i1 : Interpretation :=
    match entryValueTruthy properties.ph with
    | some ph_value =>
      if ph_value < 5.5 then
        { i0 with ph_status := "Acidic - may need lime",
                  recommendations := i0.recommendations ++ ["Consider soil liming to increase pH"] }
      else if ph_value > 7.5 then
        { i0 with ph_status := "Alkaline - may limit nutrient availability",
                  recommendations := i0.recommendations ++ ["Monitor nutrient availability in alkaline conditions"] }
      else
        { i0 with ph_status := "Optimal for most crops" }
    | none => i0
  let sand := entryValueD properties.sand
  let clay := entryValueD properties.clay
  let i2e : Except String Interpretation :=
    match sand with
    | none => .error textureTypeError
    | some s =>
      if s > 70 then
        .ok { i1 with soil_type := "Sandy - good drainage, may need frequent irrigation" }
      else
        match clay with
        | none => .error textureTypeError
        | some c =>
          if c > 40 then
            .ok { i1 with soil_type := "Clay - good water retention, may have drainage issues" }
          else
            .ok { i1 with soil_type := "Loamy - balanced soil type, good for most crops" }
  match i2e with
  | .error e => .error e
  | .ok i2 =>
    match entryValueTruthy properties.soc with
    | some soc_value =>
      if soc_value < 1.0 then
        .ok { i2 with organic_matter := "Low - needs organic matter addition",
                      recommendations := i2.recommendations ++ ["Add compost or organic matter to improve soil health"] }
      else if soc_value > 3.0 then
        .ok { i2 with organic_matter := "High - excellent soil health" }
      else
        .ok { i2 with organic_matter := "Moderate - adequate for crop production" }
    | none => .ok i2

/-- soil_service.SoilService session state: whether both credentials are
configured (nonempty username and password) and the current access token
(none models both the initial None and a falsy token). -/
structure SoilServiceState where
  hasCredentials : Bool
  access_token : Option String
deriving DecidableEq

/-- Outcome of one HTTP POST to the login endpoint, as authenticate sees
it: a 2xx body carrying a truthy access_token, a 2xx body without one,
or a raised requests exception (network error or raise_for_status). -/
inductive AuthResponse where
  | token (t : String)
  | noToken
  | failure
deriving DecidableEq

/-- Outcome of one HTTP GET to the soilproperty endpoint: a 2xx response
whose JSON parses to a properties dictionary, a 401 status, or any other
raised requests exception or error status. -/
inductive SoilResponse where
  | success (props : SoilProps)
  | unauthorized
  | failure
deriving DecidableEq

/-- The provider: the response to the k-th authenticate call and to the
k-th GET request issued during one client call. -/
structure SoilEnv where
  authResponses : ℕ → AuthResponse
  getResponses : ℕ → SoilResponse

/-- Numbers of authenticate calls and GET requests performed. -/
structure CallCounts where
  authCalls : ℕ
  getCalls : ℕ
deriving DecidableEq

/-- soil_service.SoilService.authenticate: raises ValueError (the error
branch) when either credential is missing; otherwise stores the returned
token (clearing it when the body has none) and reports success as the
truthiness of the stored token.  A raised requests exception leaves the
token unchanged and reports failure. -/
def authenticate (st : SoilServiceState) (resp : AuthResponse) :
    Except String (Bool × SoilServiceState) :=
  if !st.hasCredentials then
    .error "iSDAsoil credentials not configured"
  else
    match resp with
    | .token t => .ok (true, { st with access_token := some t })
    | .noToken => .ok (false, { st with access_token := none })
    | .failure => .ok (false, st)

/-- The location block of the dictionary built by get_soil_properties. -/
structure SoilInfo where
  lat : ℚ
  lon : ℚ
  depth : String
  properties : SoilProps
deriving DecidableEq

/-- The try block of soil_service.SoilService.get_soil_properties, entered
with a valid token and authsSoFar authenticate calls already made: first
GET; on a 401 status exactly one re-authentication (a ValueError raised
there is caught by the blanket except and becomes None) and, when it
succeeds, exactly one retried GET; a second 401 raises through
raise_for_status and is caught, yielding None. -/
def getSoilTry (st : SoilServiceState) (env : SoilEnv) (authsSoFar : ℕ)
    (lat lon : ℚ) (depth : String) :
    Except String (Option SoilInfo) × SoilServiceState × CallCounts :=
  match env.getResponses 0 with
  | .success props => (.ok (some ⟨lat, lon, depth, props⟩), st, ⟨authsSoFar, 1⟩)
  | .failure => (.ok none, st, ⟨authsSoFar, 1⟩)
  | .unauthorized =>
    match authenticate st (env.authResponses authsSoFar) with
    | .error _ => (.ok none, st, ⟨authsSoFar + 1, 1⟩)
    | .ok (false, st1) => (.ok none, st1, ⟨authsSoFar + 1, 1⟩)
    | .ok (true, st1) =>
      match env.getResponses 1 with
      | .success props => (.ok (some ⟨lat, lon, depth, props⟩), st1, ⟨authsSoFar + 1, 2⟩)
      | .unauthorized => (.ok none, st1, ⟨authsSoFar + 1, 2⟩)
      | .failure => (.ok none, st1, ⟨authsSoFar + 1, 2⟩)

/-- soil_service.SoilService.get_soil_properties.  The entry check sits
before the try block: with no token, authenticate is called there, and a
ValueError raised for missing credentials propagates to the caller
(the error result); an unsuccessful authentication returns None. -/
def get_soil_properties (st : SoilServiceState) (env : SoilEnv)
    (lat lon : ℚ) (depth : String) :
    Except String (Option SoilInfo) × SoilServiceState × CallCounts :=
  match st.access_token with
  | some _ => getSoilTry st env 0 lat lon depth
  | none =>
    match authenticate st (env.authResponses 0) with
    | .error e => (.error e, st, ⟨1, 0⟩)
    | .ok (false, st1) => (.ok none, st1, ⟨1, 0⟩)
    | .ok (true, st1) => getSoilTry st1 env 1 lat lon depth

/-- The analysis dictionary built by get_agricultural_soil_analysis. -/
structure SoilAnalysis where
  lat : ℚ
  lon : ℚ
  depth : String
  soil_analysis : SoilProps
  agricultural_interpretation : Interpretation
deriving DecidableEq

/-- soil_service.SoilService.get_agricultural_soil_analysis: fetch the
nine agronomic properties, return None when the fetch returned None, and
otherwise attach the agricultural interpretation.  A ValueError raised by
the entry authentication, or a TypeError raised by the interpretation,
propagates (the function has no handler). -/
def get_agricultural_soil_analysis (st : SoilServiceState) (env : SoilEnv)
    (lat lon : ℚ) :
    Except String (Option SoilAnalysis) × SoilServiceState × CallCounts :=
  match get_soil_properties st env lat lon "0-20" with
  | (.error e, st1, c) => (.error e, st1, c)
  | (.ok none, st1, c) => (.ok none, st1, c)
  | (.ok (some si), st1, c) =>
    match interpret_soil_for_agriculture si.properties with
    | .error e => (.error e, st1, c)
    | .ok interp =>
      (.ok (some ⟨si.lat, si.lon, si.depth, si.properties, interp⟩), st1, c)

/-- Python truthiness of an optional number (None and 0 are falsy). -/
def optTruthy (v : Option ℚ) : Bool :=
  match v with
  | none => false
  | some x => x != 0

/-- The fields of the weather dictionary built by
weather_service.WeatherService.get_current_weather that the recommender
reads: location name, echoed coordinates (absent fields stay None),
current temperature, humidity and the condition description. -/
structure WeatherData where
  name : String
  lat : Option ℚ
  lon : Option ℚ
  temp : ℚ
  humidity : ℚ
  description : String
deriving DecidableEq

/-- recommender.calculate_suitability_score: base 50, then the
temperature bands, the humidity bands and, when soil data is present and
its pH value truthy, the pH bands; the final value is clamped to [0, 100].
The crop_rec argument of the source is never read and is omitted. -/
def calculate_suitability_score (weather_data : WeatherData)
    (soil_data : Option SoilAnalysis) : ℚ :=
  let score : ℚ := 50
  let temp := weather_data.temp
  let humidity := weather_data.humidity
  let score :=
    if 18 ≤ temp ∧ temp ≤ 27 then score + 20
    else if 15 ≤ temp ∧ temp ≤ 30 then score + 10
    else if temp < 10 ∨ temp > 35 then score - 20
    else score
  let score :=
    if 50 ≤ humidity ∧ humidity ≤ 70 then score + 15
    else if humidity > 90 then score - 10
    else if humidity < 30 then score - 15
    else score
  let score :=
    match soil_data with
    | some sd =>
      match entryValueTruthy sd.soil_analysis.ph with
      | some ph =>
        if 6.0 ≤ ph ∧ ph ≤ 7.5 then score + 15
        else if ph < 5.0 ∨ ph > 8.5 then score - 15
        else score
      | none => score
    | none => score
  max 0 (min 100 score)

/-- The enhanced recommendation dictionary built by
recommender.enhance_recommendations_with_context. -/
structure Enhanced where
  name : String
  season : String
  tips : String
  enhanced_tips : List String
  suitability_score : ℚ
deriving DecidableEq

/-- The loop body of enhance_recommendations_with_context: weather tips
from the temperature and humidity bands, soil tips from the
interpretation advisories, combined with the base tip, and the score. -/
def enhanceOne (weather_data : WeatherData) (soil_data : Option SoilAnalysis)
    (rec : RecOut) : Enhanced :=
  let temp := weather_data.temp
  let humidity := weather_data.humidity
  let weather_tips : List String :=
    (if temp > 30 then ["High temperature - ensure adequate irrigation"]
     else if temp < 15 then ["Cool weather - consider protection for sensitive crops"]
     else []) ++
    (if humidity > 80 then ["High humidity - monitor for fungal diseases"]
     else if humidity < 40 then ["Low humidity - increase irrigation frequency"]
     else [])
  let soil_tips : List String :=
    match soil_data with
    | some sd => sd.agricultural_interpretation.recommendations
    | none => []
  let all_tips := [rec.tips] ++ weather_tips ++ soil_tips
  ⟨rec.name, rec.season, rec.tips, all_tips,
   calculate_suitability_score weather_data soil_data⟩

/-- The comparison handed to the sort of
enhance_recommendations_with_context: Python list.sort with
key suitability_score and reverse=True keeps a before b when the score of
a is at least the score of b, and is stable. -/
def scoreGE (a b : Enhanced) : Bool :=
  decide (b.suitability_score ≤ a.suitability_score)

/-- recommender.enhance_recommendations_with_context: enhance each
matching recommendation in catalog order, then the stable descending
sort by suitability score. -/
def enhance_recommendations_with_context (recommendations : List RecOut)
    (weather_data : WeatherData) (soil_data : Option SoilAnalysis) :
    List Enhanced :=
  ((recommendations.map (enhanceOne weather_data soil_data)).mergeSort scoreGE)

/-- The soil_ph local of recommender.recommend_crops_with_location:
default 6.5, replaced by the pH value when soil data is present, its
soil_analysis dictionary nonempty, and the ph value truthy. -/
def derive_soil_ph (soil_data : Option SoilAnalysis) : ℚ :=
  match soil_data with
  | none => 6.5
  | some sd =>
    if sd.soil_analysis.nonempty then
      match entryValueTruthy sd.soil_analysis.ph with
      | some v => v
      | none => 6.5
    else 6.5

/-- The soil_type_detected local of recommend_crops_with_location:
default "loamy", replaced according to which texture word occurs in the
interpretation soil_type string. -/
def derive_soil_type (soil_data : Option SoilAnalysis) : String :=
  match soil_data with
  | none => "loamy"
  | some sd =>
    if sd.soil_analysis.nonempty then
      let label := sd.agricultural_interpretation.soil_type
      if strContains label "Sandy" then "sandy"
      else if strContains label "Clay" then "clay"
      else if strContains label "Loamy" then "loamy"
      else "loamy"
    else "loamy"

/-- The weather sub-dictionary of the result of
recommend_crops_with_location. -/
structure WeatherSummary where
  temperature : ℚ
  humidity : ℚ
  description : String
  estimated_rainfall : ℚ
deriving DecidableEq

/-- The success shape of the result of recommend_crops_with_location. -/
structure LocOk where
  location : String
  recommendations : List Enhanced
  weather : WeatherSummary
  soil_ph : ℚ
  soil_type : String
  analysis_available : Bool
  soil_source : String
deriving DecidableEq

/-- The result of recommend_crops_with_location: either one of the two
error dictionaries (carrying their error message) or the success shape. -/
inductive LocResult where
  | error (msg : String)
  | ok (r : LocOk)
deriving DecidableEq

/-- recommender.recommend_crops_with_location.  The weather fetch outcome
is passed in (error models a raised exception such as the missing API key
ValueError, caught by the blanket handler; none models the None return).
Soil analysis is attempted only when both echoed coordinates are truthy;
an exception raised there (missing soil credentials) is caught by the
blanket handler and becomes the error result. -/
def recommend_crops_with_location (crops : List Crop)
    (weather : Except String (Option WeatherData))
    (soilSt : SoilServiceState) (env : SoilEnv) : LocResult :=
  match weather with
  | .error e => .error ("Recommendation service error: " ++ e)
  | .ok none => .error "Unable to get weather data"
  | .ok (some w) =>
    let soilRes : Except String (Option SoilAnalysis) :=
      if optTruthy w.lat && optTruthy w.lon then
        (get_agricultural_soil_analysis soilSt env (w.lat.getD 0) (w.lon.getD 0)).1
      else .ok none
    match soilRes with
    | .error e => .error ("Recommendation service error: " ++ e)
    | .ok soil_data =>
      let temp := w.temp
      let humidity := w.humidity
      let estimated_rainfall := estimate_rainfall_from_humidity humidity
      let soil_ph := derive_soil_ph soil_data
      let soil_type_detected := derive_soil_type soil_data
      let recommendations := recommend_crops crops temp estimated_rainfall soil_ph soil_type_detected
      let enhanced := enhance_recommendations_with_context recommendations w soil_data
      .ok ⟨w.name, enhanced,
           ⟨temp, humidity, w.description, estimated_rainfall⟩,
           soil_ph, soil_type_detected, soil_data.isSome,
           if soil_data.isSome then "iSDAsoil" else "Default values"⟩

/-- recommender.check_seasonal_suitability: fixed per-season temperature
bands, defaulting to (10, 30) for an unknown season. -/
def check_seasonal_suitability (current_temp : ℚ) (season : String) : Bool :=
  let temp_range : ℚ × ℚ :=
    if pyLower season = "spring" then (15, 25)
    else if pyLower season = "summer" then (20, 35)
    else if pyLower season = "autumn" then (10, 25)
    else if pyLower season = "winter" then (5, 20)
    else (10, 30)
  decide (temp_range.1 ≤ current_temp ∧ current_temp ≤ temp_range.2)

/-- A seasonal recommendation entry built by get_seasonal_recommendations. -/
structure SeasonalRec where
  name : String
  season : String
  tips : String
  temperature_range : ℚ × ℚ
  rainfall_range : ℚ × ℚ
  soil_ph_range : ℚ × ℚ
  soil_types : List String
deriving DecidableEq

/-- The optional current_conditions annotation. -/
structure CurrentConditions where
  temperature : ℚ
  suitable_for_season : Bool
deriving DecidableEq

/-- The two result shapes of get_seasonal_recommendations: the
no-crops-found message dictionary, and the listing with its optional
current_conditions annotation. -/
inductive SeasonalResult where
  | empty (season : String) (message : String)
  | listing (season : String) (recommendations : List SeasonalRec)
      (location : String) (total_crops : ℕ)
      (current_conditions : Option CurrentConditions)
deriving DecidableEq

/-- The current_conditions field of a SeasonalResult (none for the
no-crops shape). -/
def SeasonalResult.currentConditions : SeasonalResult → Option CurrentConditions
  | .empty _ _ => none
  | .listing _ _ _ _ cc => cc

/-- Whether a SeasonalResult is the listing shape. -/
def SeasonalResult.isListing : SeasonalResult → Bool
  | .empty _ _ => false
  | .listing _ _ _ _ _ => true

/-- recommender.get_seasonal_recommendations.  The weather fetch outcome
for the optional location is passed in; the bare except swallows a raised
exception (error case, e.g. the missing API key ValueError) and a falsy
return (none) adds no annotation. -/
def get_seasonal_recommendations (crops : List Crop) (season : String)
    (location : Option String)
    (weather : Except String (Option WeatherData)) : SeasonalResult :=
  let seasonal_crops := crops.filter (fun c => pyLower c.season == pyLower season)
  if seasonal_crops.isEmpty then
    .empty season ("No crops found for " ++ season ++ " season")
  else
    let recommendations : List SeasonalRec :=
      seasonal_crops.map (fun c =>
        ⟨c.name, c.season, c.tips, c.temperature_range, c.rainfall_range,
         c.soil_ph_range, c.soil_types⟩)
    let current_conditions : Option CurrentConditions :=
      match location with
      | none => none
      | some _ =>
        match weather with
        | .error _ => none
        | .ok none => none
        | .ok (some w) => some ⟨w.temp, check_seasonal_suitability w.temp season⟩
    .listing season recommendations (location.getD "General")
      recommendations.length current_conditions

/-- Specification-side temperature band adjustment (section 4.3 step 5). -/
def tempAdjust (temp : ℚ) : ℚ :=
  if 18 ≤ temp ∧ temp ≤ 27 then 20
  else if 15 ≤ temp ∧ temp ≤ 30 then 10
  else if temp < 10 ∨ temp > 35 then -20
  else 0

/-- Specification-side humidity band adjustment (section 4.3 step 5). -/
def humidityAdjust (humidity : ℚ) : ℚ :=
  if 50 ≤ humidity ∧ humidity ≤ 70 then 15
  else if humidity > 90 then -10
  else if humidity < 30 then -15
  else 0

/-- Specification-side pH band adjustment: zero when soil data is absent
or its pH value is not truthy. -/
def phAdjust (soil_data : Option SoilAnalysis) : ℚ :=
  match soil_data with
  | some sd =>
    match entryValueTruthy sd.soil_analysis.ph with
    | some ph =>
      if 6.0 ≤ ph ∧ ph ≤ 7.5 then 15
      else if ph < 5.0 ∨ ph > 8.5 then -15
      else 0
    | none => 0
  | none => 0

/-- Specification-side crop matching predicate (section 4.3 step 4):
temperature, rainfall and pH inside the closed intervals, and soil_type a
case-insensitive member of the soil_types set. -/
def cropMatchesSpec (temp rain ph : ℚ) (soil_type : String) (crop : Crop) : Prop :=
  (crop.temperature_range.1 ≤ temp ∧ temp ≤ crop.temperature_range.2) ∧
  (crop.rainfall_range.1 ≤ rain ∧ rain ≤ crop.rainfall_range.2) ∧
  (crop.soil_ph_range.1 ≤ ph ∧ ph ≤ crop.soil_ph_range.2) ∧
  ∃ s ∈ crop.soil_types, pyLower s = pyLower soil_type

instance (temp rain ph : ℚ) (soil_type : String) (crop : Crop) :
    Decidable (cropMatchesSpec temp rain ph soil_type crop) := by
  unfold cropMatchesSpec
  infer_instance

/-- Specification-side pH status field of the interpretation, as a
function of the truthy pH value. -/
def phStatusText (v : Option ℚ) : String :=
  match v with
  | some ph =>
    if ph < 5.5 then "Acidic - may need lime"
    else if ph > 7.5 then "Alkaline - may limit nutrient availability"
    else "Optimal for most crops"
  | none => "Unknown"

/-- Specification-side advisory lines contributed by the pH block. -/
def phAdvisory (v : Option ℚ) : List String :=
  match v with
  | some ph =>
    if ph < 5.5 then ["Consider soil liming to increase pH"]
    else if ph > 7.5 then ["Monitor nutrient availability in alkaline conditions"]
    else []
  | none => []

/-- Specification-side texture outcome as a function of the defaulted
sand and clay values: the label when both reachable comparisons see
numbers (an absent key counting as 0), the TypeError when a present sand
entry, or a reachable present clay entry, holds a null value. -/
def textureLabel (sand clay : Option ℚ) : Except String String :=
  match sand with
  | none => .error textureTypeError
  | some s =>
    if s > 70 then .ok "Sandy - good drainage, may need frequent irrigation"
    else
      match clay with
      | none => .error textureTypeError
      | some c =>
        if c > 40 then .ok "Clay - good water retention, may have drainage issues"
        else .ok "Loamy - balanced soil type, good for most crops"

/-- Specification-side organic matter field as a function of the truthy
organic carbon value. -/
def socStatusText (v : Option ℚ) : String :=
  match v with
  | some soc =>
    if soc < 1.0 then "Low - needs organic matter addition"
    else if soc > 3.0 then "High - excellent soil health"
    else "Moderate - adequate for crop production"
  | none => "Unknown"

/-- Specification-side advisory lines contributed by the organic carbon
block. -/
def socAdvisory (v : Option ℚ) : List String :=
  match v with
  | some soc =>
    if soc < 1.0 then ["Add compost or organic matter to improve soil health"]
    else []
  | none => []

/-- Example weather reading with temperature 5 and humidity 95. -/
def exampleWeather595 : WeatherData := ⟨"Example", some 1, some 2, 5, 95, "clear sky"⟩

/-- Example soil properties dictionary holding only a pH of 9. -/
def exampleProperties9 : SoilProps :=
  { SoilProps.empty with ph := some ⟨some 9, "", none⟩ }

/-- The interpretation the service computes for the pH 9 example (the
interpretation succeeds there: sand and clay are absent, defaulting
to 0). -/
def exampleInterpretation9 : Interpretation :=
  match interpret_soil_for_agriculture exampleProperties9 with
  | .ok i => i
  | .error _ => ⟨"Unknown", "Unknown", "Unknown", "Unknown", []⟩

/-- Example soil analysis with pH 9. -/
def exampleAnalysis9 : SoilAnalysis :=
  ⟨1, 2, "0-20", exampleProperties9, exampleInterpretation9⟩

/-- Example pH entry returned by the provider with the falsy value 0. -/
def examplePhEntry0 : PropEntry := ⟨some 0, "", none⟩

/-- Example soil properties dictionary holding only a pH entry of value 0. -/
def exampleProperties0 : SoilProps :=
  { SoilProps.empty with ph := some examplePhEntry0 }

/-- The interpretation the service computes for the pH 0 example (the
interpretation succeeds there: sand and clay are absent, defaulting
to 0). -/
def exampleInterpretation0 : Interpretation :=
  match interpret_soil_for_agriculture exampleProperties0 with
  | .ok i => i
  | .error _ => ⟨"Unknown", "Unknown", "Unknown", "Unknown", []⟩

/-- Example soil analysis whose pH entry has the falsy value 0. -/
def exampleAnalysis0 : SoilAnalysis :=
  ⟨1, 2, "0-20", exampleProperties0, exampleInterpretation0⟩

/-- Example weather reading with truthy echoed coordinates. -/
def exampleWeatherCoords : WeatherData := ⟨"Cape Town", some 1, some 2, 22, 60, "clear sky"⟩

/-- Example provider where every outbound call fails. -/
def envAllFail : SoilEnv := ⟨fun _ => .failure, fun _ => .failure⟩

/-- Example provider that always answers authentication with a fresh
token and every GET request with a 401 status. -/
def envAlways401 : SoilEnv := ⟨fun _ => .token "fresh", fun _ => .unauthorized⟩

set_option maxHeartbeats 1000000 in
/-- The suitability score is the clamp to [0, 100] of the base 50 plus
the three independent additive band adjustments; no clamp is applied
before the end. -/
theorem score_eq_clamped_sum (w : WeatherData) (s : Option SoilAnalysis) :
    calculate_suitability_score w s =
      max 0 (min 100 (50 + tempAdjust w.temp + humidityAdjust w.humidity + phAdjust s)) := by
  rcases s with _ | sd
  · simp only [calculate_suitability_score, tempAdjust, humidityAdjust, phAdjust]
    split_ifs <;> norm_num
  · simp only [calculate_suitability_score, tempAdjust, humidityAdjust, phAdjust]
    rcases h : entryValueTruthy sd.soil_analysis.ph with _ | phv <;>
      simp only [h] <;> split_ifs <;> norm_num

/-- Claim C3: for every weather input and optional soil pH the
suitability score lies in [0, 100]; it is the sum of the base 50 and the
temperature, humidity and pH band adjustments, clamped only at the end;
and at temperature 5, humidity 95 and pH 9 it equals
50 - 20 - 10 - 15 = 5. -/
theorem c3_score_clamped_additive :
    (∀ (w : WeatherData) (s : Option SoilAnalysis),
      0 ≤ calculate_suitability_score w s ∧ calculate_suitability_score w s ≤ 100 ∧
      calculate_suitability_score w s =
        max 0 (min 100 (50 + tempAdjust w.temp + humidityAdjust w.humidity + phAdjust s))) ∧
    calculate_suitability_score exampleWeather595 (some exampleAnalysis9) = 5 := by
  constructor
  · intro w s
    refine ⟨?_, ?_, score_eq_clamped_sum w s⟩
    · rw [score_eq_clamped_sum]
      exact le_max_left 0 _
    · rw [score_eq_clamped_sum]
      exact max_le (by norm_num) (min_le_left _ _)
  · norm_num [calculate_suitability_score, exampleWeather595, exampleAnalysis9,
      exampleProperties9, entryValueTruthy, SoilProps.empty]

/-- Claim C7: with soil data absent the pH band is skipped entirely and
the score is computed from the temperature and humidity bands alone
(and is always produced, the function being total). -/
theorem c7_score_without_soil (w : WeatherData) :
    calculate_suitability_score w none =
      max 0 (min 100 (50 + tempAdjust w.temp + humidityAdjust w.humidity)) := by
  have h := score_eq_clamped_sum w none
  simpa [phAdjust] using h

/-- Claim C8: the rainfall estimate is the fixed step function of
humidity with steps 800, 600, 400 and 300 mm at the 80, 60 and 40
thresholds. -/
theorem c8_rainfall_step (humidity : ℚ) :
    (humidity ≥ 80 → estimate_rainfall_from_humidity humidity = 800) ∧
    (humidity ≥ 60 → humidity < 80 → estimate_rainfall_from_humidity humidity = 600) ∧
    (humidity ≥ 40 → humidity < 60 → estimate_rainfall_from_humidity humidity = 400) ∧
    (humidity < 40 → estimate_rainfall_from_humidity humidity = 300) := by
  unfold estimate_rainfall_from_humidity
  refine ⟨?_, ?_, ?_, ?_⟩ <;> intros <;> split_ifs <;> first | rfl | linarith

/-- Witness for claim C8 at humidities 85, 70, 50 and 30. -/
theorem c8_rainfall_step_witness :
    estimate_rainfall_from_humidity 85 = 800 ∧ estimate_rainfall_from_humidity 70 = 600 ∧
    estimate_rainfall_from_humidity 50 = 400 ∧ estimate_rainfall_from_humidity 30 = 300 :=
  ⟨(c8_rainfall_step 85).1 (by norm_num),
   (c8_rainfall_step 70).2.1 (by norm_num) (by norm_num),
   (c8_rainfall_step 50).2.2.1 (by norm_num) (by norm_num),
   (c8_rainfall_step 30).2.2.2 (by norm_num)⟩

/-- Claim C4 counterexample: with the sand and clay properties absent the
interpretation succeeds and its soil_type field reads the Loamy label,
not "Unknown". -/
theorem c4_counterexample_missing_sand_clay :
    SoilProps.empty.sand = none ∧ SoilProps.empty.clay = none ∧
    (interpret_soil_for_agriculture SoilProps.empty).map Interpretation.soil_type
      = .ok "Loamy - balanced soil type, good for most crops" ∧
    "Loamy - balanced soil type, good for most crops" ≠ "Unknown" :=
  ⟨rfl, rfl, rfl, by decide⟩

/-- Claim C4 as amended: a missing pH or organic-carbon property leaves
its interpretation field at "Unknown" and contributes no advisory line,
the fertility rating always stays "Unknown", and each property is
interpreted independently of the others; the soil texture field however
is never left at "Unknown": when the reachable sand and clay comparisons
see numbers (an absent key counting as 0) it is always classified, so
with sand and clay both absent it reads the Loamy label, and when a
present sand entry, or a reachable present clay entry, holds a null
value the interpretation raises TypeError instead of returning. -/
theorem c4_interpretation_fields :
    (∀ properties : SoilProps,
      interpret_soil_for_agriculture properties =
        (textureLabel (entryValueD properties.sand) (entryValueD properties.clay)).map
          (fun tex =>
            (⟨tex, "Unknown",
              phStatusText (entryValueTruthy properties.ph),
              socStatusText (entryValueTruthy properties.soc),
              phAdvisory (entryValueTruthy properties.ph) ++
                socAdvisory (entryValueTruthy properties.soc)⟩ : Interpretation))) ∧
    (interpret_soil_for_agriculture SoilProps.empty).map Interpretation.soil_type
      = .ok "Loamy - balanced soil type, good for most crops" := by
  constructor
  · intro properties
    simp only [interpret_soil_for_agriculture, textureLabel, phStatusText, socStatusText,
      phAdvisory, socAdvisory, Except.map]
    rcases hsand : entryValueD properties.sand with _ | s <;>
      rcases hclay : entryValueD properties.clay with _ | c <;>
        rcases hp : entryValueTruthy properties.ph with _ | phv <;>
          rcases hs : entryValueTruthy properties.soc with _ | socv <;>
            simp only [hsand, hclay, hp, hs] <;> (try split_ifs) <;> rfl
  · rfl

/-- The boolean matching test of recommend_crops agrees with the
specification predicate. -/
theorem cropMatches_iff (t r p : ℚ) (st : String) (c : Crop) :
    cropMatches t r p st c = true ↔ cropMatchesSpec t r p st c := by
  unfold cropMatches cropMatchesSpec
  simp [and_assoc, List.mem_map]

/-- Claim C5: recommend_crops returns exactly the crops whose closed
temperature, rainfall and pH intervals contain the inputs (bounds
inclusive) and whose soil_types contain soil_type case-insensitively, in
catalog order, projected to name, season and tips. -/
theorem c5_recommend_crops_filter (crops : List Crop) (t r p : ℚ) (st : String) :
    recommend_crops crops t r p st =
      (crops.filter fun c => decide (cropMatchesSpec t r p st c)).map
        (fun c => ⟨c.name, c.season, c.tips⟩) := by
  induction crops with
  | nil => rfl
  | cons c rest ih =>
    have hiff := cropMatches_iff t r p st c
    simp only [recommend_crops, List.filter_cons]
    by_cases h : cropMatchesSpec t r p st c <;> simp [hiff, h, ih]

/-- Claim C9: a weather fetch failure (including the raised missing API
key error) is swallowed by get_seasonal_recommendations: the result is
the same as with no weather data, and carries no current_conditions
annotation. -/
theorem c9_seasonal_swallows_weather_error (crops : List Crop) (season : String)
    (loc : Option String) (e : String) :
    get_seasonal_recommendations crops season loc (.error e)
      = get_seasonal_recommendations crops season loc (.ok none) ∧
    (get_seasonal_recommendations crops season loc (.error e)).currentConditions = none := by
  simp only [get_seasonal_recommendations]
  rcases loc with _ | l <;> split_ifs <;>
    simp [SeasonalResult.currentConditions]

/-- Claim C10: a pH reading whose value is 0 is treated as absent: the
matching pH defaults to 6.5 exactly as with no soil data, and the pH
band adjustment of the score is skipped. -/
theorem c10_falsy_ph_default (w : WeatherData) (sd : SoilAnalysis) (e : PropEntry)
    (h1 : sd.soil_analysis.ph = some e) (h2 : e.value = some 0) :
    derive_soil_ph (some sd) = 6.5 ∧ derive_soil_ph none = 6.5 ∧
    calculate_suitability_score w (some sd) = calculate_suitability_score w none := by
  have ht : entryValueTruthy sd.soil_analysis.ph = none := by
    rw [h1]
    simp [entryValueTruthy, h2]
  refine ⟨?_, rfl, ?_⟩
  · simp [derive_soil_ph, ht]
  · rw [score_eq_clamped_sum, score_eq_clamped_sum]
    simp [phAdjust, ht]

/-- Witness for claim C10 at a concrete analysis whose pH value is 0. -/
theorem c10_falsy_ph_default_witness :
    derive_soil_ph (some exampleAnalysis0) = 6.5 ∧ derive_soil_ph none = 6.5 ∧
    calculate_suitability_score exampleWeather595 (some exampleAnalysis0) =
      calculate_suitability_score exampleWeather595 none :=
  c10_falsy_ph_default exampleWeather595 exampleAnalysis0 examplePhEntry0 rfl rfl

/-- Claim C1 evaluated on the code: with no soil credentials configured
and resolvable coordinates, the recommendation returns the error result
(raised ValueError caught by the blanket handler), not the weather-only
degraded result the specification promises. -/
theorem c1_missing_soil_credentials_error (crops : List Crop) (w : WeatherData)
    (env : SoilEnv) (st : SoilServiceState)
    (hcred : st.hasCredentials = false) (htok : st.access_token = none)
    (hlat : optTruthy w.lat = true) (hlon : optTruthy w.lon = true) :
    recommend_crops_with_location crops (.ok (some w)) st env =
      .error "Recommendation service error: iSDAsoil credentials not configured" := by
  have hsoil : (get_agricultural_soil_analysis st env (w.lat.getD 0) (w.lon.getD 0)).1
      = .error "iSDAsoil credentials not configured" := by
    simp [get_agricultural_soil_analysis, get_soil_properties, htok, authenticate, hcred]
  simp only [recommend_crops_with_location, hlat, hlon, Bool.and_self, if_pos, hsoil]
  rfl

/-- Witness for claim C1 at a concrete state with no credentials. -/
theorem c1_missing_soil_credentials_error_witness :
    recommend_crops_with_location [] (.ok (some exampleWeatherCoords))
        ⟨false, none⟩ envAllFail =
      .error "Recommendation service error: iSDAsoil credentials not configured" :=
  c1_missing_soil_credentials_error [] exampleWeatherCoords envAllFail ⟨false, none⟩
    rfl rfl (by decide) (by decide)

/-- Claim C2: a 401 on a request with a live token triggers exactly one
re-authentication and exactly one retried request; a second 401 yields
the absent-data result None rather than further retries. -/
theorem c2_single_reauth_retry (st : SoilServiceState) (env : SoilEnv)
    (lat lon : ℚ) (depth : String) (tk t : String)
    (htok : st.access_token = some tk) (hcred : st.hasCredentials = true)
    (h401 : env.getResponses 0 = .unauthorized)
    (hauth : env.authResponses 0 = .token t) :
    (get_soil_properties st env lat lon depth).2.2 = ⟨1, 2⟩ ∧
    (env.getResponses 1 = .unauthorized →
      (get_soil_properties st env lat lon depth).1 = .ok none) := by
  simp only [get_soil_properties, htok, getSoilTry, h401, hauth, authenticate, hcred]
  rcases h2 : env.getResponses 1 with props | _ | _ <;> simp [h2]

/-- Witness for claim C2 against a provider answering 401 twice. -/
theorem c2_single_reauth_retry_witness :
    (get_soil_properties ⟨true, some "expired"⟩ envAlways401 1 2 "0-20").2.2 = ⟨1, 2⟩ ∧
    (envAlways401.getResponses 1 = .unauthorized →
      (get_soil_properties ⟨true, some "expired"⟩ envAlways401 1 2 "0-20").1 = .ok none) :=
  c2_single_reauth_retry ⟨true, some "expired"⟩ envAlways401 1 2 "0-20" "expired" "fresh"
    rfl rfl rfl rfl

/-- The sort comparison is transitive. -/
theorem scoreGE_trans (a b c : Enhanced) (hab : scoreGE a b = true)
    (hbc : scoreGE b c = true) : scoreGE a c = true := by
  simp only [scoreGE, decide_eq_true_eq] at hab hbc ⊢
  exact le_trans hbc hab

/-- The sort comparison is total. -/
theorem scoreGE_total (a b : Enhanced) : (scoreGE a b || scoreGE b a) = true := by
  simp only [scoreGE, Bool.or_eq_true, decide_eq_true_eq]
  exact le_total _ _

/-- Claim C6: the enhanced recommendations come out sorted by
suitability score in descending order, and the sublist of entries at any
fixed score is exactly the corresponding sublist of the unsorted
enhanced list, which is in catalog order: ties preserve catalog order. -/
theorem c6_enhance_sorted_stable (recs : List RecOut) (w : WeatherData)
    (soil : Option SoilAnalysis) :
    (enhance_recommendations_with_context recs w soil).Pairwise
      (fun a b => b.suitability_score ≤ a.suitability_score) ∧
    ∀ q : ℚ,
      (enhance_recommendations_with_context recs w soil).filter
          (fun x => x.suitability_score == q)
        = (recs.map (enhanceOne w soil)).filter (fun x => x.suitability_score == q) := by
  constructor
  · have h := @List.sorted_mergeSort Enhanced scoreGE scoreGE_trans scoreGE_total
      (recs.map (enhanceOne w soil))
    unfold enhance_recommendations_with_context
    exact h.imp (fun hab => by simpa [scoreGE] using hab)
  · intro q
    have hsub : ((recs.map (enhanceOne w soil)).filter
        (fun x => x.suitability_score == q)).Sublist (recs.map (enhanceOne w soil)) :=
      List.filter_sublist _
    have hpw : ((recs.map (enhanceOne w soil)).filter
        (fun x => x.suitability_score == q)).Pairwise (fun a b => scoreGE a b = true) := by
      apply List.pairwise_of_forall_mem_list
      intro a ha b hb
      have ha2 := (List.mem_filter.mp ha).2
      have hb2 := (List.mem_filter.mp hb).2
      simp only [beq_iff_eq] at ha2 hb2
      simp [scoreGE, ha2, hb2]
    have hmain := List.sublist_mergeSort scoreGE_trans scoreGE_total hpw hsub
    have hself : ((recs.map (enhanceOne w soil)).filter
          (fun x => x.suitability_score == q)).filter (fun x => x.suitability_score == q)
        = (recs.map (enhanceOne w soil)).filter (fun x => x.suitability_score == q) :=
      List.filter_eq_self.mpr (fun a ha => (List.mem_filter.mp ha).2)
    have hfil := hmain.filter (fun x => x.suitability_score == q)
    rw [hself] at hfil
    have hperm : ((recs.map (enhanceOne w soil)).mergeSort scoreGE).Perm
        (recs.map (enhanceOne w soil)) := List.mergeSort_perm _ _
    have hlen : (((recs.map (enhanceOne w soil)).mergeSort scoreGE).filter
          (fun x => x.suitability_score == q)).length
        = ((recs.map (enhanceOne w soil)).filter (fun x => x.suitability_score == q)).length :=
      (hperm.filter _).length_eq
    unfold enhance_recommendations_with_context
    exact (hfil.eq_of_length hlen.symm).symm
